import Mathlib

/-!
Verification of the neural-network-compression RL environment of
`reinforcement_learning/rl_network_compression_ray_custom/rl_network_compression_ray_custom.ipynb`.

The notebook's Introduction defines the data of the problem: a state of one
1×8 float descriptor per removable layer (40 for Resnet-18), an action that is
a boolean array (True = remove the layer), the compression ratio
C = 1 - M_s/M, and the reward r = (C*A_s)/((2-C)*A), with r = -1 when the
explored network cannot train or is out of memory.  Real numbers of the
formulas are embedded as rationals.

The environment file `src/environment.py` referenced by the notebook is not
part of the repository; the `step`/`reset` semantics below are therefore
modelled from the spec, as marked on each definition.  The consolidation of
worker metrics (the Process Outputs cell) is embedded directly from the
notebook code.
-/

namespace NetworkCompression

/-- Scalar statistics of the uncompressed master network: parameter count `M`
and accuracy `A`.  Computed once at initialization, read-only afterwards. -/
structure MasterNetworkStats where
  M : ℚ
  A : ℚ
deriving DecidableEq

/-- Fixed-size numeric feature vector (8 floats) describing one removable
layer (the notebook's 1×8 array of floats per layer). -/
def LayerDescriptor : Type := Fin 8 → ℚ

/-- Ordered sequence of layer descriptors, one per removable layer; the
agent-visible state. -/
def ObservationState : Type := List LayerDescriptor

/-- Compression ratio of the notebook: `C = 1 - M_s / M`, where `M` is the
master parameter count and `Ms` the child parameter count. -/
def compressionC (M Ms : ℚ) : ℚ := 1 - Ms / M

/-- Reward of the notebook as a function of the compression ratio `C`:
`r = (C * A_s) / ((2 - C) * A)`. -/
def rewardOfC (C A As : ℚ) : ℚ := (C * As) / ((2 - C) * A)

/-- Reward of the notebook in terms of the parameter counts and accuracies:
`r = (C * A_s) / ((2 - C) * A)` with `C = 1 - M_s / M`. -/
def rewardFormula (M A Ms As : ℚ) : ℚ := rewardOfC (compressionC M Ms) A As

/-- C3: for every master parameter count `M > 0` and child parameter count
`Ms ≥ 0`, the compression ratio `C = 1 - Ms / M` is at most 1 (so it lies in
`(-∞, 1]`), it is zero exactly when `Ms = M`, and it is negative whenever the
child is larger than the master (`Ms > M`). -/
theorem compressionC_range (M Ms : ℚ) (hM : 0 < M) (hMs : 0 ≤ Ms) :
    compressionC M Ms ≤ 1 ∧
    (compressionC M Ms = 0 ↔ Ms = M) ∧
    (M < Ms → compressionC M Ms < 0) := by
  have hM0 : M ≠ 0 := ne_of_gt hM
  refine ⟨?_, ?_, ?_⟩
  · have : 0 ≤ Ms / M := div_nonneg hMs (le_of_lt hM)
    simp only [compressionC]
    linarith
  · simp only [compressionC, sub_eq_zero]
    rw [eq_comm, div_eq_one_iff_eq hM0]
  · intro h
    have : 1 < Ms / M := (one_lt_div hM).mpr h
    simp only [compressionC]
    linarith

/-- Witness for C3 at the concrete input `M = 2`, `Ms = 3`. -/
theorem compressionC_range_witness :
    (0 : ℚ) < 2 ∧ (0 : ℚ) ≤ 3 ∧
    (compressionC 2 3 ≤ 1 ∧
      (compressionC 2 3 = 0 ↔ (3 : ℚ) = 2) ∧
      ((2 : ℚ) < 3 → compressionC 2 3 < 0)) :=
  ⟨by norm_num, by norm_num, compressionC_range 2 3 (by norm_num) (by norm_num)⟩

/-- C7: holding the accuracies (hence the ratio `A_s / A`) fixed at positive
values, the reward `r = (C * A_s) / ((2 - C) * A)` is strictly increasing in
the compression ratio on `(0, 1)`: for `0 < c₁ < c₂ < 1` the reward at `c₁`
is strictly below the reward at `c₂`. -/
theorem rewardOfC_strictMono (A As c₁ c₂ : ℚ) (hA : 0 < A) (hAs : 0 < As)
    (h0 : 0 < c₁) (h12 : c₁ < c₂) (h2 : c₂ < 1) :
    rewardOfC c₁ A As < rewardOfC c₂ A As := by
  have hd1 : 0 < (2 - c₁) * A := by nlinarith
  have hd2 : 0 < (2 - c₂) * A := by nlinarith
  unfold rewardOfC
  rw [div_lt_div_iff₀ hd1 hd2]
  nlinarith [mul_pos (mul_pos hAs hA) (sub_pos.mpr h12)]

/-- Witness for C7 at the concrete input `A = 4/5`, `As = 3/5`,
`c₁ = 1/4`, `c₂ = 1/2`. -/
theorem rewardOfC_strictMono_witness :
    (0 : ℚ) < 4/5 ∧ (0 : ℚ) < 3/5 ∧ (0 : ℚ) < 1/4 ∧ (1/4 : ℚ) < 1/2 ∧
    (1/2 : ℚ) < 1 ∧ rewardOfC (1/4) (4/5) (3/5) < rewardOfC (1/2) (4/5) (3/5) :=
  ⟨by norm_num, by norm_num, by norm_num, by norm_num, by norm_num,
    rewardOfC_strictMono (4/5) (3/5) (1/4) (1/2) (by norm_num) (by norm_num)
      (by norm_num) (by norm_num) (by norm_num)⟩

/-- C9: with `M = 1000000`, `Ms = 300000`, `A = 0.81`, `As = 0.75`, the
compression ratio is `C = 0.7` and the reward is
`(0.7 * 0.75) / ((2 - 0.7) * 0.81) = 0.525 / 1.053`, which is within `1e-4`
of `0.4986`. -/
theorem reward_concrete_scenario :
    compressionC 1000000 300000 = 7/10 ∧
    rewardFormula 1000000 (81/100) 300000 (3/4) =
      ((7/10) * (3/4)) / ((2 - 7/10) * (81/100)) ∧
    rewardFormula 1000000 (81/100) 300000 (3/4) = (525/1000) / (1053/1000) ∧
    |rewardFormula 1000000 (81/100) 300000 (3/4) - 4986/10000| ≤ 1/10000 := by
  refine ⟨?_, ?_, ?_, ?_⟩ <;>
    norm_num [compressionC, rewardFormula, rewardOfC, abs_le]

/-- Modelled from the spec: the environment file `src/environment.py` is
referenced by the notebook but missing from the repository.  An environment
instance holds the read-only master statistics and the fixed per-layer
descriptors of the master network's removable layers. -/
structure CompressionEnv where
  masterStats : MasterNetworkStats
  layerDescriptors : List LayerDescriptor

/-- Number of removable layers of the environment's master network (40 for
the reference Resnet-18). -/
def CompressionEnv.numRemovableLayers (env : CompressionEnv) : ℕ :=
  env.layerDescriptors.length

/-- Modelled from the spec: `reset()` of the missing `src/environment.py`
returns the fixed ObservationState describing the master network's removable
layers and has no side effects; the environment value is returned unchanged. -/
def reset (env : CompressionEnv) : ObservationState × CompressionEnv :=
  (env.layerDescriptors, env)

/-- Modelled from the spec: typed outcome of the compressor's single
build-and-train attempt of the missing
`src/tensorflow_resnet/network_compression.py` — either a trained child with
parameter count `Ms` and accuracy `As`, or one of the failure variants
(shape-incompatible mask, out of memory, non-finite accuracy,
non-convergence). -/
inductive BuildTrainResult where
  | trained (Ms As : ℚ)
  | unbuildable
  | outOfMemory
  | nonFiniteAccuracy
  | nonConvergent
deriving DecidableEq

/-- Failure test on a build-and-train outcome: every non-`trained` variant is
a failure, and so is a degenerate trained network with zero parameters
(`Ms = 0`, all layers removed). -/
def isFailure : BuildTrainResult → Bool
  | .trained Ms _ => decide (Ms = 0)
  | _ => true

/-- Reward attached to a build-and-train outcome: the notebook's formula
`r = (C * A_s) / ((2 - C) * A)` on a successful (non-degenerate) trained
child, and the sentinel `r = -1` on every failure. -/
def stepReward (stats : MasterNetworkStats) : BuildTrainResult → ℚ
  | .trained Ms As =>
      if Ms = 0 then -1 else rewardFormula stats.M stats.A Ms As
  | _ => -1

/-- Per-step episode record: compression ratio, child accuracy, reward and
the mask that produced them. -/
structure EpisodeResult where
  C : ℚ
  As : ℚ
  r : ℚ
  mask : List Bool

/-- Episode record attached to a build-and-train outcome. -/
def episodeInfo (stats : MasterNetworkStats) (action : List Bool) :
    BuildTrainResult → EpisodeResult
  | .trained Ms As =>
      ⟨compressionC stats.M Ms, As, stepReward stats (.trained Ms As), action⟩
  | _ => ⟨0, 0, -1, action⟩

/-- Error that `step` surfaces to the caller: only the invalid-action
(length-mismatch) programming error, carrying the expected and actual
lengths. -/
inductive StepError where
  | invalidAction (expected actual : ℕ)
deriving DecidableEq

/-- Modelled from the spec: `step` of the missing `src/environment.py`.  The
compressor's outcome is passed in as a typed result (the build/train itself
is external TensorFlow code).  A length-mismatched action surfaces an
invalid-action error; otherwise the call returns the 4-tuple
`(observation, reward, done = true, info)`, with every build/train failure
absorbed into the sentinel reward `-1`. -/
def step (env : CompressionEnv) (action : List Bool)
    (outcome : BuildTrainResult) :
    Except StepError (ObservationState × ℚ × Bool × EpisodeResult) :=
  if action.length = env.numRemovableLayers then
    .ok (env.layerDescriptors, stepReward env.masterStats outcome, true,
      episodeInfo env.masterStats action outcome)
  else
    .error (.invalidAction env.numRemovableLayers action.length)

/-- Concrete example environment used by the witnesses: master statistics of
the notebook scenario (`M = 1000000`, `A = 0.81`) and 40 removable layers. -/
def exampleEnv : CompressionEnv :=
  ⟨⟨1000000, 81/100⟩, List.replicate 40 (fun _ => 0)⟩

/-- Concrete all-`false` action (remove nothing) of the correct length 40. -/
def exampleAction : List Bool := List.replicate 40 false

/-- C1: on a step call whose action has the correct length and whose child
network trained successfully (outcome `trained Ms As` with `Ms ≠ 0`), the
returned reward is exactly `(C * A_s) / ((2 - C) * A)` with
`C = 1 - M_s / M`, taken at the master stats `(M, A)` and child stats
`(Ms, As)`. -/
theorem step_reward_success (env : CompressionEnv) (action : List Bool)
    (Ms As : ℚ) (hlen : action.length = env.numRemovableLayers)
    (hMs : Ms ≠ 0) :
    step env action (.trained Ms As) =
      .ok (env.layerDescriptors,
        ((1 - Ms / env.masterStats.M) * As) /
          ((2 - (1 - Ms / env.masterStats.M)) * env.masterStats.A),
        true, episodeInfo env.masterStats action (.trained Ms As)) := by
  simp [step, hlen, stepReward, hMs, rewardFormula, rewardOfC, compressionC]

/-- Witness for C1 at the concrete environment and the notebook's child stats
`Ms = 300000`, `As = 0.75`. -/
theorem step_reward_success_witness :
    exampleAction.length = exampleEnv.numRemovableLayers ∧
    (300000 : ℚ) ≠ 0 ∧
    step exampleEnv exampleAction (.trained 300000 (3/4)) =
      .ok (exampleEnv.layerDescriptors,
        ((1 - 300000 / exampleEnv.masterStats.M) * (3/4)) /
          ((2 - (1 - 300000 / exampleEnv.masterStats.M)) *
            exampleEnv.masterStats.A),
        true,
        episodeInfo exampleEnv.masterStats exampleAction
          (.trained 300000 (3/4))) :=
  ⟨by simp [exampleAction, exampleEnv, CompressionEnv.numRemovableLayers],
    by norm_num,
    step_reward_success exampleEnv exampleAction 300000 (3/4)
      (by simp [exampleAction, exampleEnv, CompressionEnv.numRemovableLayers])
      (by norm_num)⟩

/-- C2: a step call with a correct-length action whose build/train outcome is
a failure (out of memory, unbuildable mask, non-finite accuracy,
non-convergence, or a degenerate trained network with `Ms = 0`) does not
surface an error: it returns `.ok` with reward `-1` and `done = true`,
overriding the reward formula. -/
theorem step_absorbs_failure (env : CompressionEnv) (action : List Bool)
    (outcome : BuildTrainResult)
    (hlen : action.length = env.numRemovableLayers)
    (hfail : isFailure outcome = true) :
    step env action outcome =
      .ok (env.layerDescriptors, -1, true,
        episodeInfo env.masterStats action outcome) := by
  cases outcome with
  | trained Ms As =>
      have hMs : Ms = 0 := by
        simpa [isFailure] using hfail
      simp [step, hlen, stepReward, hMs]
  | unbuildable => simp [step, hlen, stepReward]
  | outOfMemory => simp [step, hlen, stepReward]
  | nonFiniteAccuracy => simp [step, hlen, stepReward]
  | nonConvergent => simp [step, hlen, stepReward]

/-- Witness for C2 at the concrete environment with an out-of-memory
outcome. -/
theorem step_absorbs_failure_witness :
    exampleAction.length = exampleEnv.numRemovableLayers ∧
    isFailure .outOfMemory = true ∧
    step exampleEnv exampleAction .outOfMemory =
      .ok (exampleEnv.layerDescriptors, -1, true,
        episodeInfo exampleEnv.masterStats exampleAction .outOfMemory) :=
  ⟨by simp [exampleAction, exampleEnv, CompressionEnv.numRemovableLayers],
    by simp [isFailure],
    step_absorbs_failure exampleEnv exampleAction .outOfMemory
      (by simp [exampleAction, exampleEnv, CompressionEnv.numRemovableLayers])
      (by simp [isFailure])⟩

/-- C4: a step call surfaces an error exactly when the action length differs
from the number of removable layers, and the only error it can surface is
the invalid-action error; correct-length actions never propagate an error,
whatever the build/train outcome. -/
theorem step_error_iff (env : CompressionEnv) (action : List Bool)
    (outcome : BuildTrainResult) (e : StepError) :
    step env action outcome = .error e ↔
      (action.length ≠ env.numRemovableLayers ∧
        e = .invalidAction env.numRemovableLayers action.length) := by
  unfold step
  split
  · simp_all
  · constructor
    · intro h
      refine ⟨by assumption, ?_⟩
      cases h
      rfl
    · intro ⟨_, he⟩
      rw [he]

/-- Witness for C4: an action of length 3 against the 40-layer example
environment surfaces exactly the invalid-action error. -/
theorem step_error_iff_witness :
    step exampleEnv [false, true, false] .outOfMemory =
      .error (.invalidAction 40 3) :=
  (step_error_iff exampleEnv [false, true, false] .outOfMemory
    (.invalidAction 40 3)).mpr
    ⟨by simp [exampleEnv, CompressionEnv.numRemovableLayers],
      by simp [exampleEnv, CompressionEnv.numRemovableLayers]⟩

/-- C6: every step call with a correct-length action — success or absorbed
failure alike — returns the 4-tuple `(observation, reward, done, info)` with
`done = true`, and the info component carries the episode-result fields: its
recorded reward is the returned reward and its recorded mask is the action. -/
theorem step_terminal_episode (env : CompressionEnv) (action : List Bool)
    (outcome : BuildTrainResult)
    (hlen : action.length = env.numRemovableLayers) :
    step env action outcome =
      .ok (env.layerDescriptors, stepReward env.masterStats outcome, true,
        episodeInfo env.masterStats action outcome) ∧
    (episodeInfo env.masterStats action outcome).r =
      stepReward env.masterStats outcome ∧
    (episodeInfo env.masterStats action outcome).mask = action := by
  refine ⟨by simp [step, hlen], ?_, ?_⟩ <;>
    cases outcome <;> simp [episodeInfo, stepReward]

/-- Witness for C6 at the concrete environment with a non-convergent
outcome. -/
theorem step_terminal_episode_witness :
    exampleAction.length = exampleEnv.numRemovableLayers ∧
    (step exampleEnv exampleAction .nonConvergent =
      .ok (exampleEnv.layerDescriptors,
        stepReward exampleEnv.masterStats .nonConvergent, true,
        episodeInfo exampleEnv.masterStats exampleAction .nonConvergent) ∧
      (episodeInfo exampleEnv.masterStats exampleAction .nonConvergent).r =
        stepReward exampleEnv.masterStats .nonConvergent ∧
      (episodeInfo exampleEnv.masterStats exampleAction
          .nonConvergent).mask = exampleAction) :=
  ⟨by simp [exampleAction, exampleEnv, CompressionEnv.numRemovableLayers],
    step_terminal_episode exampleEnv exampleAction .nonConvergent
      (by simp [exampleAction, exampleEnv,
        CompressionEnv.numRemovableLayers])⟩

/-- C8: two consecutive `reset` calls return identical observations, and
`reset` leaves the master statistics (indeed the whole environment value)
unchanged. -/
theorem reset_idempotent (env : CompressionEnv) :
    (reset (reset env).2).1 = (reset env).1 ∧
    (reset env).2.masterStats = env.masterStats ∧
    (reset (reset env).2).2.masterStats = env.masterStats :=
  ⟨rfl, rfl, rfl⟩

/-- Witness for C8 at the concrete example environment. -/
theorem reset_idempotent_witness :
    (reset (reset exampleEnv).2).1 = (reset exampleEnv).1 ∧
    (reset exampleEnv).2.masterStats = exampleEnv.masterStats ∧
    (reset (reset exampleEnv).2).2.masterStats = exampleEnv.masterStats :=
  reset_idempotent exampleEnv

/-- Concrete environment refuting the claimed reward lower bound: master
parameter count `M = 100000` and master accuracy `A = 0.1`. -/
def cexEnv : CompressionEnv :=
  ⟨⟨100000, 1/10⟩, List.replicate 40 (fun _ => 0)⟩

/-- C5 counterexample: with a correct-length action, `C = -10 ∈ (-∞, 1]`,
`A_s = 1 ∈ [0, 1]` and `A = 0.1 ∈ (0, 1]`, the step call succeeds and
returns reward `-25/3 < -1`, so the reward of a successful step is not
bounded below by `-1` under the claim's stated bounds. -/
theorem step_reward_below_neg_one :
    exampleAction.length = cexEnv.numRemovableLayers ∧
    compressionC cexEnv.masterStats.M 1100000 = -10 ∧
    compressionC cexEnv.masterStats.M 1100000 ≤ 1 ∧
    (0 : ℚ) ≤ 1 ∧ (1 : ℚ) ≤ 1 ∧
    0 < cexEnv.masterStats.A ∧ cexEnv.masterStats.A ≤ 1 ∧
    step cexEnv exampleAction (.trained 1100000 1) =
      .ok (cexEnv.layerDescriptors, -25/3, true,
        episodeInfo cexEnv.masterStats exampleAction (.trained 1100000 1)) ∧
    (-25/3 : ℚ) < -1 := by
  refine ⟨?_, ?_, ?_, ?_, ?_, ?_, ?_, ?_, ?_⟩
  · simp [exampleAction, cexEnv, CompressionEnv.numRemovableLayers]
  · norm_num [cexEnv, compressionC]
  · norm_num [cexEnv, compressionC]
  · norm_num
  · norm_num
  · norm_num [cexEnv]
  · norm_num [cexEnv]
  · simp only [step, exampleAction, cexEnv, CompressionEnv.numRemovableLayers]
    norm_num [stepReward, rewardFormula, rewardOfC, compressionC]
  · norm_num

/-- C5 as amended: for every correct-length action, with `M > 0`,
`A ∈ (0, 1]`, and — when the child trained — `M_s ≥ 0` and
`A_s ∈ [0, 1]` with `A_s ≤ A`, the step call returns its reward and that
reward is at least `-1` (failures return the sentinel `-1` itself). -/
theorem step_reward_lower_bound (env : CompressionEnv) (action : List Bool)
    (outcome : BuildTrainResult)
    (hlen : action.length = env.numRemovableLayers)
    (hM : 0 < env.masterStats.M)
    (hA : 0 < env.masterStats.A) (hA1 : env.masterStats.A ≤ 1)
    (hchild : ∀ Ms As, outcome = .trained Ms As →
      0 ≤ Ms ∧ 0 ≤ As ∧ As ≤ 1 ∧ As ≤ env.masterStats.A) :
    step env action outcome =
      .ok (env.layerDescriptors, stepReward env.masterStats outcome, true,
        episodeInfo env.masterStats action outcome) ∧
    -1 ≤ stepReward env.masterStats outcome := by
  refine ⟨by simp [step, hlen], ?_⟩
  cases outcome with
  | trained Ms As =>
      obtain ⟨hMs, hAs0, _, hle⟩ := hchild Ms As rfl
      by_cases h0 : Ms = 0
      · simp [stepReward, h0]
      · simp only [stepReward, if_neg h0]
        unfold rewardFormula rewardOfC compressionC
        set M := env.masterStats.M with hMdef
        set A := env.masterStats.A with hAdef
        set C := 1 - Ms / M with hC
        have hCle : C ≤ 1 := by
          have hq : 0 ≤ Ms / M := div_nonneg hMs hM.le
          rw [hC]; linarith
        have hD : 0 < (2 - C) * A := by nlinarith
        rw [le_div_iff₀ hD]
        rcases le_or_lt 0 C with hCpos | hCneg
        · have hprod : 0 ≤ C * As := mul_nonneg hCpos hAs0
          nlinarith
        · have hprod : C * A ≤ C * As :=
            mul_le_mul_of_nonpos_left hle hCneg.le
          nlinarith
  | unbuildable => simp [stepReward]
  | outOfMemory => simp [stepReward]
  | nonFiniteAccuracy => simp [stepReward]
  | nonConvergent => simp [stepReward]

/-- Witness for the amended C5 at the concrete environment with child stats
`Ms = 300000`, `As = 0.75 ≤ 0.81 = A`. -/
theorem step_reward_lower_bound_witness :
    exampleAction.length = exampleEnv.numRemovableLayers ∧
    0 < exampleEnv.masterStats.M ∧
    0 < exampleEnv.masterStats.A ∧ exampleEnv.masterStats.A ≤ 1 ∧
    (step exampleEnv exampleAction (.trained 300000 (3/4)) =
      .ok (exampleEnv.layerDescriptors,
        stepReward exampleEnv.masterStats (.trained 300000 (3/4)), true,
        episodeInfo exampleEnv.masterStats exampleAction
          (.trained 300000 (3/4))) ∧
      -1 ≤ stepReward exampleEnv.masterStats (.trained 300000 (3/4))) :=
  ⟨by simp [exampleAction, exampleEnv, CompressionEnv.numRemovableLayers],
    by norm_num [exampleEnv], by norm_num [exampleEnv],
    by norm_num [exampleEnv],
    step_reward_lower_bound exampleEnv exampleAction (.trained 300000 (3/4))
      (by simp [exampleAction, exampleEnv, CompressionEnv.numRemovableLayers])
      (by norm_num [exampleEnv]) (by norm_num [exampleEnv])
      (by norm_num [exampleEnv])
      (by
        intro Ms As h
        cases h
        refine ⟨by norm_num, by norm_num, by norm_num,
          by norm_num [exampleEnv]⟩)⟩

/-- Row of the consolidated metrics file, as parsed by the Process Outputs
cell's `pd.read_csv` with column names
`["reward", "x-factor", "accuracy", "dir"]`. -/
structure MetricsRecord where
  reward : ℚ
  xFactor : ℚ
  accuracy : ℚ
  dir : String
deriving DecidableEq

/-- Parse of one comma-separated metrics 4-tuple
`(reward, x-factor, accuracy, dir)` into a record. -/
def readCsvRow (row : ℚ × ℚ × ℚ × String) : MetricsRecord :=
  ⟨row.1, row.2.1, row.2.2.1, row.2.2.2⟩

/-- Parse of the concatenated per-worker metrics records. -/
def readCsv (rows : List (ℚ × ℚ × ℚ × String)) : List MetricsRecord :=
  rows.map readCsvRow

/-- Ascending order on the `reward` column, the key of
`df.sort_values("reward")`. -/
def rewardLe (a b : MetricsRecord) : Prop := a.reward ≤ b.reward

instance : DecidableRel rewardLe := fun a b =>
  inferInstanceAs (Decidable (a.reward ≤ b.reward))

instance : IsTotal MetricsRecord rewardLe :=
  ⟨fun a b => le_total a.reward b.reward⟩

instance : IsTrans MetricsRecord rewardLe :=
  ⟨fun _ _ _ hab hbc => le_trans hab hbc⟩

/-- Embedding of `df.sort_values("reward")`: sort the records in ascending
order of the reward column. -/
def sortValuesByReward (df : List MetricsRecord) : List MetricsRecord :=
  df.insertionSort rewardLe

/-- Embedding of `df.tail(n)`: the last `n` rows of the frame. -/
def tailRows (n : ℕ) (df : List MetricsRecord) : List MetricsRecord :=
  df.drop (df.length - n)

/-- Embedding of the Process Outputs cell: parse the consolidated records,
sort ascending by reward, and keep the last 10 rows for printing. -/
def processOutputs (rows : List (ℚ × ℚ × ℚ × String)) : List MetricsRecord :=
  tailRows 10 (sortValuesByReward (readCsv rows))

/-- C10: the consolidation step parses each metrics record as the 4-tuple
`(reward, x-factor, accuracy, dir)` and sorts ascending by the reward
column: the sorted frame is a permutation of the parsed records and is
sorted by reward, every row outside the printed `tail(10)` has reward at
most that of every printed row (so the last 10 rows are the 10 highest
rewards, ties aside), and any record preceding a sentinel-reward `-1`
record in the sorted order itself has reward at most `-1` — hence sentinel
records sort before every record of higher reward. -/
theorem processOutputs_top_rewards (rows : List (ℚ × ℚ × ℚ × String))
    (x y a b : MetricsRecord) (pre mid post : List MetricsRecord)
    (hx : x ∈ (sortValuesByReward (readCsv rows)).take
      ((sortValuesByReward (readCsv rows)).length - 10))
    (hy : y ∈ processOutputs rows)
    (hsplit : sortValuesByReward (readCsv rows) =
      pre ++ (a :: (mid ++ (b :: post))))
    (hb : b.reward = -1) :
    (sortValuesByReward (readCsv rows)).Perm (readCsv rows) ∧
    (sortValuesByReward (readCsv rows)).Sorted rewardLe ∧
    x.reward ≤ y.reward ∧
    a.reward ≤ -1 := by
  have hperm : (sortValuesByReward (readCsv rows)).Perm (readCsv rows) :=
    List.perm_insertionSort rewardLe (readCsv rows)
  have hsorted : (sortValuesByReward (readCsv rows)).Sorted rewardLe :=
    List.sorted_insertionSort rewardLe (readCsv rows)
  refine ⟨hperm, hsorted, ?_, ?_⟩
  · have hy' : y ∈ (sortValuesByReward (readCsv rows)).drop
        ((sortValuesByReward (readCsv rows)).length - 10) := hy
    have hps : (sortValuesByReward (readCsv rows)).Pairwise rewardLe :=
      hsorted
    rw [← List.take_append_drop
      ((sortValuesByReward (readCsv rows)).length - 10)
      (sortValuesByReward (readCsv rows))] at hps
    exact (List.pairwise_append.mp hps).2.2 x hx y hy'
  · have hps : (pre ++ (a :: (mid ++ (b :: post)))).Pairwise rewardLe := by
      rw [← hsplit]; exact hsorted
    have h2 := (List.pairwise_append.mp hps).2.1
    have h3 : rewardLe a b :=
      (List.pairwise_cons.mp h2).1 b
        (List.mem_append_right mid (List.mem_cons_self b post))
    have h4 : a.reward ≤ b.reward := h3
    rw [hb] at h4
    exact h4

/-- Concrete consolidated records (12 rows) used by the C10 witness,
containing one sentinel reward `-1` and one reward below it. -/
def exRows : List (ℚ × ℚ × ℚ × String) :=
  [(3, 2, 1, "g"), (-1, 1, 0, "b"), (0, 1, 0, "c"), (7, 4, 1, "k"),
   (1, 1, 0, "d"), (5, 3, 1, "i"), (-2, 1, 0, "a"), (2, 2, 0, "f"),
   (9, 5, 1, "m"), (4, 3, 1, "h"), (8, 5, 1, "l"), (6, 4, 1, "j")]

/-- Witness for C10 at the concrete 12-row record list. -/
theorem processOutputs_top_rewards_witness :
    ((⟨-1, 1, 0, "b"⟩ : MetricsRecord) ∈
      (sortValuesByReward (readCsv exRows)).take
        ((sortValuesByReward (readCsv exRows)).length - 10)) ∧
    ((⟨0, 1, 0, "c"⟩ : MetricsRecord) ∈ processOutputs exRows) ∧
    (sortValuesByReward (readCsv exRows) =
      [] ++ ((⟨-2, 1, 0, "a"⟩ : MetricsRecord) :: ([] ++ (⟨-1, 1, 0, "b"⟩ ::
        [⟨0, 1, 0, "c"⟩, ⟨1, 1, 0, "d"⟩, ⟨2, 2, 0, "f"⟩,
         ⟨3, 2, 1, "g"⟩, ⟨4, 3, 1, "h"⟩, ⟨5, 3, 1, "i"⟩,
         ⟨6, 4, 1, "j"⟩, ⟨7, 4, 1, "k"⟩, ⟨8, 5, 1, "l"⟩,
         ⟨9, 5, 1, "m"⟩])))) ∧
    (MetricsRecord.reward ⟨-1, 1, 0, "b"⟩ = -1) ∧
    ((sortValuesByReward (readCsv exRows)).Perm (readCsv exRows) ∧
      (sortValuesByReward (readCsv exRows)).Sorted rewardLe ∧
      MetricsRecord.reward ⟨-1, 1, 0, "b"⟩ ≤
        MetricsRecord.reward ⟨0, 1, 0, "c"⟩ ∧
      MetricsRecord.reward ⟨-2, 1, 0, "a"⟩ ≤ -1) :=
  ⟨by decide, by decide, by decide, by norm_num,
    processOutputs_top_rewards exRows ⟨-1, 1, 0, "b"⟩ ⟨0, 1, 0, "c"⟩
      ⟨-2, 1, 0, "a"⟩ ⟨-1, 1, 0, "b"⟩ [] []
      [⟨0, 1, 0, "c"⟩, ⟨1, 1, 0, "d"⟩, ⟨2, 2, 0, "f"⟩,
       ⟨3, 2, 1, "g"⟩, ⟨4, 3, 1, "h"⟩, ⟨5, 3, 1, "i"⟩,
       ⟨6, 4, 1, "j"⟩, ⟨7, 4, 1, "k"⟩, ⟨8, 5, 1, "l"⟩,
       ⟨9, 5, 1, "m"⟩]
      (by decide) (by decide) (by decide) (by norm_num)⟩

end NetworkCompression
